import Mathlib

/-!
Shallow embedding of `backend/app.py` (AQI Analytics API, FastAPI + DynamoDB).

Modelling conventions:
* A DynamoDB item (a Python dict) is an association list from attribute
  names to JSON-like values.
* The DynamoDB `table.scan()` call is the handlers' only input; a scan that
  raises is `Except.error msg`, a scan that returns items is `Except.ok items`.
* Python floats are modelled by `ℚ` (exact arithmetic); `float(x)` is
  `pyFloat`, raising (`Except.error`) exactly when Python raises.
  `x ** 0.5` on a nonnegative float is modelled by `Real.sqrt`.
* Python's `round(x, 2)` (round-half-to-even) is `round2` / `round2R`.
* `list.sort` (a stable comparison sort) is modelled by `List.insertionSort`.
  The timestamp sort key is the raw attribute value; Python's comparison is
  partial (a string/number mix, or any `None`, raises `TypeError`), and a
  comparison sort of a list holding two incomparable keys always performs
  some cross-class comparison, so the sort succeeds exactly when every pair
  of keys is comparable (`sortableKeys`) and raises otherwise.
* `int(total * 0.25)` and `int(total * 0.75)` are `total / 4` and
  `3 * total / 4` in `ℕ`: 0.25 and 0.75 are dyadic, so the float products
  are exact for every record count a scan can return.
* FastAPI serves a handler that returns a plain dict with HTTP status 200;
  both handlers return plain dicts on every path (success and except),
  modelled by the constant functions `dataHttpStatus` / `statsHttpStatus`.
-/

namespace FrontendService

/-- A JSON-like attribute value stored in a DynamoDB item. -/
inductive Value where
  | str (s : String)
  | num (q : ℚ)
  | boolean (b : Bool)
  | null
deriving DecidableEq

/-- A record: a Python dict from attribute names to values. -/
abbrev RecordT := List (String × Value)

/-- Model of `dict.get(k)`: the value stored under `k`, if any. -/
def getAttr (r : RecordT) (k : String) : Option Value :=
  (r.find? (fun p => p.1 == k)).map (fun p => p.2)

/-- Digits of a decimal numeral to a natural number. -/
def digitsToNat (cs : List Char) : ℕ :=
  cs.foldl (fun n c => n * 10 + (c.toNat - 48)) 0

/-- Python float-literal parsing, unsigned part: `"12"`, `"12.5"`, `"12."`,
`".5"`. Exponents, `inf`/`nan` and surrounding whitespace are not modelled
(the handlers' data never exercises them). -/
def parseUnsignedFloat (cs : List Char) : Option ℚ :=
  let intPart := cs.takeWhile (fun c => c ≠ '.')
  let rest := cs.dropWhile (fun c => c ≠ '.')
  match rest with
  | [] =>
    if intPart.isEmpty then none
    else if intPart.all Char.isDigit then some (digitsToNat intPart) else none
  | _ :: frac =>
    if intPart.isEmpty && frac.isEmpty then none
    else if intPart.all Char.isDigit && frac.all Char.isDigit then
      some ((digitsToNat intPart : ℚ) + (digitsToNat frac : ℚ) / (10 : ℚ) ^ frac.length)
    else none

/-- Model of `float(s)` on a string, `none` when Python raises `ValueError`. -/
def parsePyFloat (s : String) : Option ℚ :=
  match s.toList with
  | '-' :: rest => (parseUnsignedFloat rest).map (fun q => -q)
  | '+' :: rest => parseUnsignedFloat rest
  | cs => parseUnsignedFloat cs

/-- Model of `float(v)`: numbers pass through, booleans become 0/1, numeric strings
are parsed, anything else raises (`ValueError` / `TypeError`). -/
def pyFloat : Value → Except String ℚ
  | .num q => .ok q
  | .boolean b => .ok (if b then 1 else 0)
  | .str s =>
    match parsePyFloat s with
    | some q => .ok q
    | none => .error ("could not convert string to float: " ++ s)
  | .null => .error "float() argument must be a string or a real number, not NoneType"

/-- Line 92 of `app.py`: `float(item.get('random_number', 0))`. -/
def coerce (r : RecordT) : Except String ℚ :=
  pyFloat ((getAttr r "random_number").getD (Value.num 0))

/-- The list comprehension `[float(item.get('random_number', 0)) for item in items]`:
left to right, the first exception aborts the whole computation. -/
def coerceAll : List RecordT → Except String (List ℚ)
  | [] => .ok []
  | r :: rs =>
    match coerce r with
    | .error e => .error e
    | .ok q =>
      match coerceAll rs with
      | .error e => .error e
      | .ok qs => .ok (q :: qs)

/-- Python's banker's rounding to an integer (round half to even). -/
def pyRoundInt (q : ℚ) : ℤ :=
  let f := ⌊q⌋
  if q - f < 1 / 2 then f
  else if 1 / 2 < q - f then f + 1
  else if f % 2 = 0 then f else f + 1

/-- Python's `round(x, 2)` on exact rationals. -/
def round2 (q : ℚ) : ℚ := (pyRoundInt (q * 100) : ℚ) / 100

/-- Banker's rounding to an integer, on the reals (for the `** 0.5` result). -/
noncomputable def pyRoundIntR (x : ℝ) : ℤ :=
  let f := ⌊x⌋
  if x - f < 1 / 2 then f
  else if 1 / 2 < x - f then f + 1
  else if f % 2 = 0 then f else f + 1

/-- Python's `round(x, 2)` on the reals. -/
noncomputable def round2R (x : ℝ) : ℝ := (pyRoundIntR (x * 100) : ℝ) / 100

/-- Python `min` of a list (the empty case is unreachable in `get_stats`). -/
def listMin : List ℚ → ℚ
  | [] => 0
  | x :: xs => xs.foldl min x

/-- Python `max` of a list (the empty case is unreachable in `get_stats`). -/
def listMax : List ℚ → ℚ
  | [] => 0
  | x :: xs => xs.foldl max x

/-- The raw sort key `x.get('timestamp', '')` of the `/api/data` handler:
the attribute value itself, the empty string when the attribute is
absent. -/
def tsKeyV (r : RecordT) : Value := (getAttr r "timestamp").getD (Value.str "")

/-- The numeric reading Python's comparison uses: numbers are themselves,
booleans are the integers 0/1, everything else has none. -/
def keyNum : Value → Option ℚ
  | .num q => some q
  | .boolean b => some (if b then 1 else 0)
  | _ => none

/-- Whether Python can compare two keys: two strings, or two numerics
(numbers or booleans). A string/number mix raises `TypeError`, and `None`
compares with nothing, itself included. -/
def comparableV (x y : Value) : Bool :=
  match x, y with
  | .str _, .str _ => true
  | a, b => (keyNum a).isSome && (keyNum b).isSome

/-- Rank of a key's comparison class (strings, numerics, null). -/
def keyRank : Value → ℕ
  | .str _ => 0
  | .num _ => 1
  | .boolean _ => 1
  | .null => 2

/-- String reading of a key. -/
def keyStr : Value → String
  | .str s => s
  | _ => ""

/-- Python `<=` on comparable keys — strings lexicographically by code
point, numerics numerically — extended to a total preorder by ranking the
comparison classes. `get_data` consults it only when `sortableKeys` holds,
where the compared keys are in the same class and `keyLeV` coincides with
the Python comparison. -/
def keyLeV (x y : Value) : Bool :=
  if keyRank x = keyRank y then
    if keyRank x = 0 then decide (keyStr x ≤ keyStr y)
    else decide (((keyNum x).getD 0) ≤ ((keyNum y).getD 0))
  else decide (keyRank x < keyRank y)

/-- Relation of `items.sort(key=lambda x: x.get('timestamp', ''), reverse=True)`:
descending order on the timestamp keys. -/
def recDescRel (a b : RecordT) : Prop := keyLeV (tsKeyV b) (tsKeyV a) = true

instance : DecidableRel recDescRel :=
  fun a b => by unfold recDescRel; infer_instance

instance : IsTotal RecordT recDescRel :=
  ⟨fun a b => by
    unfold recDescRel
    generalize tsKeyV a = y
    generalize tsKeyV b = x
    cases x <;> cases y <;>
      simp [keyLeV, keyRank, keyStr, keyNum] <;>
      exact le_total _ _⟩

instance : IsTrans RecordT recDescRel :=
  ⟨fun a b c h1 h2 => by
    unfold recDescRel at h1 h2 ⊢
    revert h1 h2
    generalize tsKeyV a = z
    generalize tsKeyV b = y
    generalize tsKeyV c = x
    intro h1 h2
    cases x <;> cases y <;> cases z <;>
      simp_all [keyLeV, keyRank, keyStr, keyNum] <;>
      exact le_trans h2 h1⟩

/-- The in-place sort of the `/api/data` handler (lines 52-56), on record
sets whose keys Python can sort. -/
def sortRecords (items : List RecordT) : List RecordT :=
  items.insertionSort recDescRel

/-- Whether every pair of values at distinct positions is comparable. -/
def pairsComparable : List Value → Bool
  | [] => true
  | x :: xs => xs.all (fun y => comparableV x y) && pairsComparable xs

/-- Python's sort raises `TypeError` exactly when it compares an
incomparable pair of keys, which it does iff two distinct positions hold
incomparable keys (a list with fewer than two elements is never compared);
`sortableKeys` is the complement: every such pair is comparable. -/
def sortableKeys (items : List RecordT) : Bool :=
  pairsComparable (items.map tsKeyV)

/-- The message of the sort's `TypeError` (its text is abbreviated; the
claims depend only on which inputs produce it and on its non-emptiness). -/
def sortTypeErrorMsg : String :=
  "TypeError: comparison not supported between instances of the timestamp key types"

/-- String view of the timestamp key on the records scoped by `tsOkB`
(attribute a string or absent), where the Python key is that string or
the empty string; the vocabulary of the sortedness claim. -/
def timestampKey (r : RecordT) : String :=
  match getAttr r "timestamp" with
  | some (Value.str s) => s
  | _ => ""

/-- Whether the record's `timestamp` attribute is absent or a string — the
inputs on which `timestampKey` coincides with the Python sort key. -/
def tsOkB (r : RecordT) : Bool :=
  match getAttr r "timestamp" with
  | none => true
  | some (Value.str _) => true
  | some _ => false

/-- Python slice `xs[:limit]`: for negative `limit`, `xs[:-k]` drops the
last `k` elements. -/
def pySliceTo (limit : ℤ) (xs : List RecordT) : List RecordT :=
  if 0 ≤ limit then xs.take limit.toNat
  else xs.take (xs.length - limit.natAbs)

/-- The JSON envelope returned by the `/api/data` handler. -/
inductive DataResponse where
  | success (count : ℕ) (data : List RecordT)
  | error (message : String)
deriving DecidableEq

def DataResponse.countField : DataResponse → ℕ
  | .success c _ => c
  | .error _ => 0

def DataResponse.dataField : DataResponse → List RecordT
  | .success _ d => d
  | .error _ => []

def DataResponse.isErr : DataResponse → Bool
  | .success _ _ => false
  | .error _ => true

/-- The `/api/data` handler (`get_data`), as a function of the scan outcome
and the `limit` query parameter (default 50). The `try` block spans the
body, so the sort's `TypeError` on incomparable timestamp keys also lands
in the `except` branch. -/
def get_data (scan : Except String (List RecordT)) (limit : ℤ := 50) : DataResponse :=
  match scan with
  | .error e => .error e
  | .ok items =>
    if sortableKeys items then
      let latest := pySliceTo limit (sortRecords items)
      .success latest.length latest
    else .error sortTypeErrorMsg

/-- Model of `values.sort()` in the stats handler: ascending order. -/
def sortedVals (raw : List ℚ) : List ℚ :=
  raw.insertionSort (fun a b => a ≤ b)

/-- The median index `total // 2`. -/
def medIdx (total : ℕ) : ℕ := total / 2

/-- The index `int(total * 0.25)`: exact, since 0.25 is dyadic. -/
def p25Idx (total : ℕ) : ℕ := total / 4

/-- The index `int(total * 0.75)`: exact for every feasible record count. -/
def p75Idx (total : ℕ) : ℕ := 3 * total / 4

/-- Line 94: `mean = sum(values) / total`. -/
def meanCode (vs : List ℚ) : ℚ := vs.sum / vs.length

/-- The median expression of line 95. -/
def medianCode (vs : List ℚ) : ℚ :=
  if vs.length % 2 = 1 then vs.getD (medIdx vs.length) 0
  else (vs.getD (medIdx vs.length - 1) 0 + vs.getD (medIdx vs.length) 0) / 2

/-- The radicand `sum((x - mean) ** 2 for x in values) / total` of the
`std_dev` expression of line 112. -/
def varCode (vs : List ℚ) : ℚ :=
  (vs.map (fun x => (x - meanCode vs) ^ 2)).sum / vs.length

/-- The JSON envelope returned by the `/api/data/stats` handler. The
no-data envelope carries `total_records` and `message` and no numeric
fields, exactly as the dict literal of lines 86-90. -/
inductive StatsResponse where
  | noData (total_records : ℕ) (message : String)
  | success (total_records : ℕ) (minV maxV mean median p25 p75 : ℚ) (std_dev : ℝ)
  | error (message : String)

def StatsResponse.totalRecordsField : StatsResponse → ℕ
  | .noData t _ => t
  | .success t _ _ _ _ _ _ _ => t
  | .error _ => 0

def StatsResponse.minField : StatsResponse → ℚ
  | .success _ mn _ _ _ _ _ _ => mn
  | _ => 0

def StatsResponse.maxField : StatsResponse → ℚ
  | .success _ _ mx _ _ _ _ _ => mx
  | _ => 0

def StatsResponse.meanField : StatsResponse → ℚ
  | .success _ _ _ me _ _ _ _ => me
  | _ => 0

def StatsResponse.medianField : StatsResponse → ℚ
  | .success _ _ _ _ md _ _ _ => md
  | _ => 0

def StatsResponse.p25Field : StatsResponse → ℚ
  | .success _ _ _ _ _ p _ _ => p
  | _ => 0

def StatsResponse.p75Field : StatsResponse → ℚ
  | .success _ _ _ _ _ _ p _ => p
  | _ => 0

noncomputable def StatsResponse.stdDevField : StatsResponse → ℝ
  | .success _ _ _ _ _ _ _ s => s
  | _ => 0

def StatsResponse.isSuccess : StatsResponse → Bool
  | .success _ _ _ _ _ _ _ _ => true
  | _ => false

def StatsResponse.isErr : StatsResponse → Bool
  | .error _ => true
  | _ => false

/-- The success dict of lines 103-113, as a function of the coerced values
(before sorting). `min`/`max` are emitted unrounded; `mean`, `median`,
`p25`, `p75`, `std_dev` are rounded to 2 decimal places. -/
noncomputable def statsSuccess (raw : List ℚ) : StatsResponse :=
  .success (sortedVals raw).length
    (listMin (sortedVals raw)) (listMax (sortedVals raw))
    (round2 (meanCode (sortedVals raw))) (round2 (medianCode (sortedVals raw)))
    (round2 ((sortedVals raw).getD (p25Idx (sortedVals raw).length) 0))
    (round2 ((sortedVals raw).getD (p75Idx (sortedVals raw).length) 0))
    (round2R (Real.sqrt ((varCode (sortedVals raw) : ℚ) : ℝ)))

/-- The `/api/data/stats` handler (`get_stats`), as a function of the scan
outcome. The `try` block spans the whole body, so a failed `float(...)`
coercion also lands in the `except` branch. -/
noncomputable def get_stats (scan : Except String (List RecordT)) : StatsResponse :=
  match scan with
  | .error e => .error e
  | .ok [] => .noData 0 "No data available"
  | .ok items =>
    match coerceAll items with
    | .error e => .error e
    | .ok raw => statsSuccess raw

/-- FastAPI returns HTTP 200 for a handler that returns a plain dict; the
`/api/data` handler returns a plain dict on every path. -/
def dataHttpStatus (_ : DataResponse) : ℕ := 200

/-- FastAPI returns HTTP 200 for a handler that returns a plain dict; the
`/api/data/stats` handler returns a plain dict on every path. -/
def statsHttpStatus (_ : StatsResponse) : ℕ := 200

/-- Spec-side definition, for comparison: the arithmetic average. -/
def meanSpec (xs : List ℚ) : ℚ := xs.sum / xs.length

/-- Spec-side definition, for comparison: the population variance, "mean of
squared deviations from the mean". -/
def popVariance (xs : List ℚ) : ℚ :=
  meanSpec (xs.map (fun x => (x - meanSpec xs) ^ 2))

/-- The record set with `random_number` values 1, 2, 3, 4 used by the
spec's worked example. -/
def fourRecords : List RecordT :=
  [[("random_number", Value.num 1)], [("random_number", Value.num 2)],
   [("random_number", Value.num 3)], [("random_number", Value.num 4)]]

/-- The exception message a record's coercion raises, if any. -/
def coerceError (r : RecordT) : Option String :=
  match coerce r with
  | .error e => some e
  | .ok _ => none

/-- A record set with out-of-order timestamps, one record missing its
`timestamp` attribute. -/
def tsRecords : List RecordT :=
  [[("timestamp", Value.str "2024-01-01")], [],
   [("timestamp", Value.str "2024-06-01")]]

/-- A record set whose timestamp keys mix a number and a string, the input
class on which the handler's sort raises `TypeError`. -/
def mixedTsRecords : List RecordT :=
  [[("timestamp", Value.num 1)], [("timestamp", Value.str "2024-01-01")]]

theorem pySliceTo_sublist (L : ℤ) (xs : List RecordT) :
    (pySliceTo L xs).Sublist xs := by
  unfold pySliceTo
  split <;> exact List.take_sublist _ _

theorem tsOkB_key (r : RecordT) (h : tsOkB r = true) :
    tsKeyV r = Value.str (timestampKey r) := by
  unfold tsOkB at h
  unfold tsKeyV timestampKey
  cases hA : getAttr r "timestamp" with
  | none => rfl
  | some v =>
    rw [hA] at h
    cases v with
    | str s => rfl
    | num q => simp at h
    | boolean b => simp at h
    | null => simp at h

theorem pairsComparable_of_all_str (vs : List Value)
    (h : ∀ v ∈ vs, ∃ s, v = Value.str s) : pairsComparable vs = true := by
  induction vs with
  | nil => rfl
  | cons x xs ih =>
    simp only [pairsComparable, Bool.and_eq_true]
    constructor
    · rw [List.all_eq_true]
      intro y hy
      obtain ⟨sx, hx⟩ := h x (by simp)
      obtain ⟨sy, hys⟩ := h y (by simp [hy])
      rw [hx, hys]
      rfl
    · exact ih (fun v hv => h v (by simp [hv]))

theorem sortableKeys_of_tsOk (R : List RecordT) (h : ∀ x ∈ R, tsOkB x = true) :
    sortableKeys R = true := by
  unfold sortableKeys
  apply pairsComparable_of_all_str
  intro v hv
  rw [List.mem_map] at hv
  obtain ⟨r, hr, hvr⟩ := hv
  exact ⟨timestampKey r, by rw [← hvr]; exact tsOkB_key r (h r hr)⟩

theorem coerceAll_error_exists (items : List RecordT) (e : String)
    (h : coerceAll items = .error e) : ∃ r ∈ items, coerce r = .error e := by
  induction items with
  | nil => simp [coerceAll] at h
  | cons i is ih =>
    simp only [coerceAll] at h
    cases hc : coerce i with
    | error e2 =>
      rw [hc] at h
      cases h
      exact ⟨i, by simp, hc⟩
    | ok q =>
      rw [hc] at h
      cases hca : coerceAll is with
      | error e2 =>
        rw [hca] at h
        cases h
        obtain ⟨r, hr, hre⟩ := ih hca
        exact ⟨r, by simp [hr], hre⟩
      | ok qs => rw [hca] at h; cases h

theorem pyFloat_error_ne_empty (v : Value) (e : String)
    (h : pyFloat v = .error e) : e ≠ "" := by
  cases v with
  | num q => simp [pyFloat] at h
  | boolean b => simp [pyFloat] at h
  | null =>
    simp only [pyFloat, Except.error.injEq] at h
    subst h
    decide
  | str s =>
    simp only [pyFloat] at h
    cases hp : parsePyFloat s with
    | some q => rw [hp] at h; cases h
    | none =>
      rw [hp] at h
      cases h
      intro he
      apply_fun String.length at he
      rw [String.length_append] at he
      have h35 : ("could not convert string to float: ").length = 35 := rfl
      have h0 : ("" : String).length = 0 := rfl
      omega

theorem get_stats_ok_of_ne (items : List RecordT) (raw : List ℚ)
    (hne : items ≠ []) (hc : coerceAll items = .ok raw) :
    get_stats (.ok items) = statsSuccess raw := by
  cases items with
  | nil => exact absurd rfl hne
  | cons i is => simp only [get_stats, hc]

theorem p25Idx_eq_floor (n : ℕ) : p25Idx n = ⌊((n : ℚ) * (25 / 100))⌋₊ := by
  rw [show ((25 : ℚ) / 100) = 1 / 4 by norm_num, mul_one_div,
    show ((4 : ℚ)) = ((4 : ℕ) : ℚ) by norm_num, Nat.floor_div_nat, Nat.floor_natCast]
  rfl

theorem p75Idx_eq_floor (n : ℕ) : p75Idx n = ⌊((n : ℚ) * (75 / 100))⌋₊ := by
  rw [show ((n : ℚ) * (75 / 100)) = ((3 * n : ℕ) : ℚ) / ((4 : ℕ) : ℚ) by push_cast; ring,
    Nat.floor_div_nat, Nat.floor_natCast]
  rfl

theorem round2R_zero : round2R 0 = 0 := by
  unfold round2R pyRoundIntR
  norm_num

/-- Claim C4 (counterexample) — The fetch-latest operation does not return
`min(L, len(R))` records for every record set: on a record set whose
timestamp keys mix a number and a string the sort raises `TypeError` and
the operation returns an error envelope with an empty data view instead of
`min(50, 2) = 2` records. -/
theorem C4_counterexample_mixed_timestamps :
    get_data (.ok mixedTsRecords) 50 = .error sortTypeErrorMsg ∧
    (get_data (.ok mixedTsRecords) 50).dataField.length ≠
      min (50 : ℤ).toNat mixedTsRecords.length := by
  refine ⟨rfl, ?_⟩
  decide

/-- Claim C4 (amended) — For every record set `R` whose timestamp keys are
pairwise comparable (in particular whenever the timestamps are strings or
absent) and every non-negative limit `L`, the fetch-latest operation
returns exactly `min(L, len(R))` records, and its `count` field equals the
length of the returned `data` sequence; a record set with incomparable
timestamp keys instead yields an error envelope. -/
theorem C4_fetch_latest_count (R : List RecordT) (L : ℤ) (hL : 0 ≤ L)
    (hsort : sortableKeys R = true) :
    (get_data (.ok R) L).dataField.length = min L.toNat R.length ∧
    (get_data (.ok R) L).countField = (get_data (.ok R) L).dataField.length := by
  have hd : get_data (.ok R) L =
      .success (pySliceTo L (sortRecords R)).length (pySliceTo L (sortRecords R)) := by
    simp [get_data, hsort]
  rw [hd]
  constructor
  · simp [DataResponse.dataField, pySliceTo, if_pos hL, sortRecords]
  · rfl

theorem C4_witness :
    (0 : ℤ) ≤ 2 ∧ sortableKeys ([[], [], []] : List RecordT) = true ∧
    ((get_data (.ok ([[], [], []] : List RecordT)) 2).dataField.length =
      min (2 : ℤ).toNat ([[], [], []] : List RecordT).length ∧
     (get_data (.ok ([[], [], []] : List RecordT)) 2).countField =
      (get_data (.ok ([[], [], []] : List RecordT)) 2).dataField.length) :=
  ⟨by decide, by decide, C4_fetch_latest_count [[], [], []] 2 (by decide) (by decide)⟩

/-- Claim C5 — The data sequence of the fetch-latest operation is sorted by
the records' `timestamp` attribute in descending lexicographic order, a
missing `timestamp` being ordered as the empty string (scoped to record
sets whose present timestamps are strings, where the Python sort key is
total). -/
theorem C5_sorted_descending (R : List RecordT) (L : ℤ) (r : RecordT)
    (hts : ∀ x ∈ R, tsOkB x = true) (hr : getAttr r "timestamp" = none) :
    (get_data (.ok R) L).dataField.Pairwise
      (fun a b => timestampKey b ≤ timestampKey a) ∧
    timestampKey r = "" := by
  refine ⟨?_, by simp [timestampKey, hr]⟩
  have hsort : sortableKeys R = true := sortableKeys_of_tsOk R hts
  have hd : (get_data (.ok R) L).dataField = pySliceTo L (sortRecords R) := by
    simp [get_data, hsort, DataResponse.dataField]
  rw [hd]
  have hs : (sortRecords R).Pairwise recDescRel := List.sorted_insertionSort _ R
  have h2 : (pySliceTo L (sortRecords R)).Pairwise recDescRel :=
    hs.sublist (pySliceTo_sublist L (sortRecords R))
  refine h2.imp_of_mem ?_
  intro a b ha hb hab
  have haR : a ∈ R := by
    have hm := (pySliceTo_sublist L (sortRecords R)).subset ha
    simpa [sortRecords] using hm
  have hbR : b ∈ R := by
    have hm := (pySliceTo_sublist L (sortRecords R)).subset hb
    simpa [sortRecords] using hm
  unfold recDescRel at hab
  rw [tsOkB_key a (hts a haR), tsOkB_key b (hts b hbR)] at hab
  simpa [keyLeV, keyRank, keyStr] using hab

theorem C5_witness :
    (get_data (.ok tsRecords) 50).dataField.Pairwise
      (fun a b => timestampKey b ≤ timestampKey a) ∧
    timestampKey [] = "" :=
  C5_sorted_descending tsRecords 50 [] (by decide) rfl

/-- Claim C9 — On an empty scan result, the statistics operation returns a
success envelope with `total_records = 0` and an informational message and
no numeric fields, and the fetch-latest operation returns `count = 0` and
an empty `data` sequence. -/
theorem C9_empty_record_set :
    get_stats (.ok []) = .noData 0 "No data available" ∧
    ∀ L : ℤ, get_data (.ok []) L = .success 0 [] := by
  refine ⟨rfl, fun L => ?_⟩
  simp [get_data, sortableKeys, pairsComparable, sortRecords, pySliceTo]

/-- Claim C10 — Every index the statistics computation uses (`n // 2`,
`n // 2 - 1`, `int(n * 0.25)`, `int(n * 0.75)`) lies within `[0, n - 1]`
for non-empty value lists, and the success branch of the statistics
operation cannot fail when all records coerce. -/
theorem C10_indices_in_bounds (n : ℕ) (hn : 0 < n)
    (items : List RecordT) (raw : List ℚ)
    (hne : items ≠ []) (hc : coerceAll items = .ok raw) :
    medIdx n < n ∧ medIdx n - 1 < n ∧ p25Idx n < n ∧ p75Idx n < n ∧
    (get_stats (.ok items)).isSuccess = true := by
  refine ⟨?_, ?_, ?_, ?_, ?_⟩
  · unfold medIdx; omega
  · unfold medIdx; omega
  · unfold p25Idx; omega
  · unfold p75Idx; omega
  · rw [get_stats_ok_of_ne items raw hne hc]; rfl

theorem C10_witness :
    0 < 5 ∧ ([[("random_number", Value.boolean true)]] : List RecordT) ≠ [] ∧
    (medIdx 5 < 5 ∧ medIdx 5 - 1 < 5 ∧ p25Idx 5 < 5 ∧ p75Idx 5 < 5 ∧
     (get_stats (.ok ([[("random_number", Value.boolean true)]] : List RecordT))).isSuccess = true) :=
  ⟨by decide, by decide,
   C10_indices_in_bounds 5 (by decide) [[("random_number", Value.boolean true)]] [1]
     (by decide) rfl⟩

/-- Claim C1 (counterexample) — A record whose `random_number` is present but
not parseable as a number does not contribute 0.0 to a success envelope:
`float("abc")` raises, the blanket `except` catches it, and the operation
returns an error envelope. -/
theorem C1_counterexample_unparseable_is_error :
    get_stats (.ok [[("random_number", Value.str "abc")]]) =
      .error "could not convert string to float: abc" := rfl

/-- Claim C1 (amended) — A record whose `random_number` attribute is missing
contributes the default 0.0; a numeric-string value such as `"5"` is
coerced to the number 5.0 and the success envelope is computed over all
records (for the single record `{random_number: "5"}` every statistic is
5.0 and `std_dev` is 0.0). A present but unparseable value instead makes
the whole operation return an error envelope. -/
theorem C1_amended_missing_defaults_to_zero (r : RecordT)
    (h : getAttr r "random_number" = none) :
    coerce r = .ok 0 ∧
    coerce [("random_number", Value.str "5")] = .ok 5 ∧
    get_stats (.ok [[("random_number", Value.str "5")]]) =
      .success 1 5 5 5 5 5 5 0 := by
  refine ⟨by simp [coerce, h, pyFloat], rfl, ?_⟩
  have hstats : get_stats (.ok [[("random_number", Value.str "5")]]) =
      statsSuccess [5] := rfl
  rw [hstats]
  have hm : meanCode [5] = 5 := by norm_num [meanCode]
  have hv : varCode [5] = 0 := by norm_num [varCode, hm]
  unfold statsSuccess sortedVals listMin listMax medianCode medIdx p25Idx p75Idx
  norm_num [hv, hm, round2, pyRoundInt, round2R_zero, Real.sqrt_zero]

theorem C1_witness :
    getAttr ([] : RecordT) "random_number" = none ∧
    (coerce ([] : RecordT) = .ok 0 ∧
     coerce [("random_number", Value.str "5")] = .ok 5 ∧
     get_stats (.ok [[("random_number", Value.str "5")]]) =
       .success 1 5 5 5 5 5 5 0) :=
  ⟨rfl, C1_amended_missing_defaults_to_zero [] rfl⟩

/-- Claim C2 (counterexample) — The `min` output field is not its
full-precision value rounded to 2 decimal places: for the single value
0.123 the response carries `min = 0.123` while the rounded value is
0.12. -/
theorem C2_counterexample_min_unrounded :
    (get_stats (.ok [[("random_number", Value.num (123 / 1000))]])).minField =
      123 / 1000 ∧
    round2 (123 / 1000) = 12 / 100 ∧
    (123 / 1000 : ℚ) ≠ 12 / 100 := by
  refine ⟨rfl, ?_, by norm_num⟩
  norm_num [round2, pyRoundInt]

/-- Claim C2 (amended) — In every non-empty statistics success response the
`mean`, `median`, `p25`, `p75` and `std_dev` fields equal their
full-precision values rounded to 2 decimal places (internal computation at
full precision), while `min` and `max` are emitted at full precision,
unrounded. -/
theorem C2_amended_rounded_outputs (items : List RecordT) (raw : List ℚ)
    (hne : items ≠ []) (hc : coerceAll items = .ok raw) :
    (get_stats (.ok items)).meanField = round2 (meanCode (sortedVals raw)) ∧
    (get_stats (.ok items)).medianField = round2 (medianCode (sortedVals raw)) ∧
    (get_stats (.ok items)).p25Field =
      round2 ((sortedVals raw).getD (p25Idx (sortedVals raw).length) 0) ∧
    (get_stats (.ok items)).p75Field =
      round2 ((sortedVals raw).getD (p75Idx (sortedVals raw).length) 0) ∧
    (get_stats (.ok items)).stdDevField =
      round2R (Real.sqrt ((varCode (sortedVals raw) : ℚ) : ℝ)) ∧
    (get_stats (.ok items)).minField = listMin (sortedVals raw) ∧
    (get_stats (.ok items)).maxField = listMax (sortedVals raw) := by
  rw [get_stats_ok_of_ne items raw hne hc]
  exact ⟨rfl, rfl, rfl, rfl, rfl, rfl, rfl⟩

theorem C2_witness :
    (get_stats (.ok ([[("random_number", Value.num 2)]] : List RecordT))).meanField =
      round2 (meanCode (sortedVals [2])) ∧
    (get_stats (.ok ([[("random_number", Value.num 2)]] : List RecordT))).medianField =
      round2 (medianCode (sortedVals [2])) ∧
    (get_stats (.ok ([[("random_number", Value.num 2)]] : List RecordT))).p25Field =
      round2 ((sortedVals [2]).getD (p25Idx (sortedVals [2]).length) 0) ∧
    (get_stats (.ok ([[("random_number", Value.num 2)]] : List RecordT))).p75Field =
      round2 ((sortedVals [2]).getD (p75Idx (sortedVals [2]).length) 0) ∧
    (get_stats (.ok ([[("random_number", Value.num 2)]] : List RecordT))).stdDevField =
      round2R (Real.sqrt ((varCode (sortedVals [2]) : ℚ) : ℝ)) ∧
    (get_stats (.ok ([[("random_number", Value.num 2)]] : List RecordT))).minField =
      listMin (sortedVals [2]) ∧
    (get_stats (.ok ([[("random_number", Value.num 2)]] : List RecordT))).maxField =
      listMax (sortedVals [2]) :=
  C2_amended_rounded_outputs [[("random_number", Value.num 2)]] [2] (by decide) rfl

/-- Claim C3 (counterexample) — An error envelope can be returned although
the Record Store scan succeeded: a successful scan delivering one record
whose `random_number` is `null` makes the statistics operation return the
error envelope (the `try` block also catches the coercion failure). -/
theorem C3_counterexample_error_without_store_failure :
    get_stats (.ok [[("random_number", Value.null)]]) =
      .error "float() argument must be a string or a real number, not NoneType" := rfl

/-- Claim C3 (amended) — When the scan fails with message `m`, both
operations return the error envelope `{status: "error", message: m}` with
HTTP status 200 (plain dict responses are served as 200, never 5xx).
After a successful scan an error envelope can still arise, always with a
non-empty message: the statistics operation returns one only when some
record's `random_number` is present and not coercible to a float, and the
fetch-latest operation returns one only when the timestamp keys are not
pairwise comparable, carrying the sort's `TypeError` message. -/
theorem C3_amended_error_envelope (m : String) (L : ℤ) (R : List RecordT)
    (items : List RecordT) (e e2 : String)
    (hit : get_stats (.ok items) = .error e)
    (hgd : get_data (.ok R) L = .error e2) :
    get_data (.error m) L = .error m ∧
    get_stats (.error m) = .error m ∧
    dataHttpStatus (get_data (.error m) L) = 200 ∧
    statsHttpStatus (get_stats (.error m)) = 200 ∧
    sortableKeys R = false ∧ e2 = sortTypeErrorMsg ∧ e2 ≠ "" ∧
    (items.any (fun r => coerceError r == some e)) = true ∧ e ≠ "" := by
  have hR : sortableKeys R = false ∧ e2 = sortTypeErrorMsg := by
    cases hs : sortableKeys R with
    | true => simp [get_data, hs] at hgd
    | false =>
      simp only [get_data, hs, if_neg] at hgd
      refine ⟨rfl, ?_⟩
      cases hgd
      rfl
  refine ⟨rfl, rfl, rfl, rfl, hR.1, hR.2, ?_, ?_, ?_⟩
  · rw [hR.2]
    decide
  · cases items with
    | nil => simp [get_stats] at hit
    | cons i is =>
      simp only [get_stats] at hit
      cases hca : coerceAll (i :: is) with
      | ok raw => rw [hca] at hit; simp [statsSuccess] at hit
      | error e2 =>
        rw [hca] at hit
        cases hit
        obtain ⟨r, hr, hre⟩ := coerceAll_error_exists _ _ hca
        exact List.any_eq_true.2 ⟨r, hr, by simp [coerceError, hre]⟩
  · cases items with
    | nil => simp [get_stats] at hit
    | cons i is =>
      simp only [get_stats] at hit
      cases hca : coerceAll (i :: is) with
      | ok raw => rw [hca] at hit; simp [statsSuccess] at hit
      | error e2 =>
        rw [hca] at hit
        cases hit
        obtain ⟨r, _, hre⟩ := coerceAll_error_exists _ _ hca
        exact pyFloat_error_ne_empty _ _ hre

theorem C3_witness :
    get_data (.error "boom") 7 = .error "boom" ∧
    get_stats (.error "boom") = .error "boom" ∧
    dataHttpStatus (get_data (.error "boom") 7) = 200 ∧
    statsHttpStatus (get_stats (.error "boom")) = 200 ∧
    sortableKeys mixedTsRecords = false ∧
    sortTypeErrorMsg = sortTypeErrorMsg ∧ sortTypeErrorMsg ≠ "" ∧
    (([[("random_number", Value.null)]] : List RecordT).any
      (fun r => coerceError r ==
        some "float() argument must be a string or a real number, not NoneType")) = true ∧
    "float() argument must be a string or a real number, not NoneType" ≠ "" :=
  C3_amended_error_envelope "boom" 7 mixedTsRecords
    [[("random_number", Value.null)]]
    "float() argument must be a string or a real number, not NoneType"
    sortTypeErrorMsg rfl rfl

/-- Claim C6 — The `p25` and `p75` fields are the elements at indices
`floor(n * 0.25)` and `floor(n * 0.75)` of the ascending-sorted coerced
values (nearest-rank, no interpolation), each rounded to 2 decimal places;
in particular for values `[1, 2, 3, 4]`, `p25 = 2` and `p75 = 4`. -/
theorem C6_percentiles_nearest_rank (items : List RecordT) (raw : List ℚ)
    (hne : items ≠ []) (hc : coerceAll items = .ok raw) :
    (get_stats (.ok items)).p25Field =
      round2 ((sortedVals raw).getD (⌊(((sortedVals raw).length : ℚ) * (25 / 100))⌋₊) 0) ∧
    (get_stats (.ok items)).p75Field =
      round2 ((sortedVals raw).getD (⌊(((sortedVals raw).length : ℚ) * (75 / 100))⌋₊) 0) ∧
    (get_stats (.ok fourRecords)).p25Field = 2 ∧
    (get_stats (.ok fourRecords)).p75Field = 4 := by
  have h4 : get_stats (.ok fourRecords) = statsSuccess [1, 2, 3, 4] := rfl
  rw [get_stats_ok_of_ne items raw hne hc, ← p25Idx_eq_floor, ← p75Idx_eq_floor, h4]
  refine ⟨rfl, rfl, ?_, ?_⟩ <;>
    · unfold statsSuccess sortedVals p25Idx p75Idx
      norm_num [List.insertionSort, List.orderedInsert, round2, pyRoundInt,
        StatsResponse.p25Field, StatsResponse.p75Field]

theorem C6_witness :
    (get_stats (.ok fourRecords)).p25Field =
      round2 ((sortedVals [1, 2, 3, 4]).getD
        (⌊(((sortedVals [1, 2, 3, 4]).length : ℚ) * (25 / 100))⌋₊) 0) ∧
    (get_stats (.ok fourRecords)).p75Field =
      round2 ((sortedVals [1, 2, 3, 4]).getD
        (⌊(((sortedVals [1, 2, 3, 4]).length : ℚ) * (75 / 100))⌋₊) 0) ∧
    (get_stats (.ok fourRecords)).p25Field = 2 ∧
    (get_stats (.ok fourRecords)).p75Field = 4 :=
  C6_percentiles_nearest_rank fourRecords [1, 2, 3, 4] (by decide) rfl

/-- Claim C7 — The `median` field is the middle element of the
ascending-sorted coerced values for odd count, and the average of the two
middle elements for even count, rounded to 2 decimal places. -/
theorem C7_median (items : List RecordT) (raw : List ℚ)
    (hne : items ≠ []) (hc : coerceAll items = .ok raw) :
    ((sortedVals raw).length % 2 = 1 →
      (get_stats (.ok items)).medianField =
        round2 ((sortedVals raw).getD (((sortedVals raw).length - 1) / 2) 0)) ∧
    ((sortedVals raw).length % 2 = 0 →
      (get_stats (.ok items)).medianField =
        round2 (((sortedVals raw).getD ((sortedVals raw).length / 2 - 1) 0 +
          (sortedVals raw).getD ((sortedVals raw).length / 2) 0) / 2)) := by
  rw [get_stats_ok_of_ne items raw hne hc]
  constructor
  · intro hodd
    show round2 (medianCode (sortedVals raw)) = _
    unfold medianCode medIdx
    rw [if_pos hodd]
    have hidx : (sortedVals raw).length / 2 = ((sortedVals raw).length - 1) / 2 := by
      omega
    rw [hidx]
  · intro heven
    show round2 (medianCode (sortedVals raw)) = _
    unfold medianCode medIdx
    rw [if_neg (by omega)]

theorem C7_witness :
    (get_stats (.ok fourRecords)).medianField =
      round2 (((sortedVals [1, 2, 3, 4]).getD ((sortedVals [1, 2, 3, 4]).length / 2 - 1) 0 +
        (sortedVals [1, 2, 3, 4]).getD ((sortedVals [1, 2, 3, 4]).length / 2) 0) / 2) :=
  (C7_median fourRecords [1, 2, 3, 4] (by decide) rfl).2 (by decide)

/-- Claim C8 — The `std_dev` field is the population standard deviation
`sqrt(mean of squared deviations from the mean)` — dividing by `n`, not
`n - 1` — rounded to 2 decimal places, where the mean is the arithmetic
average of the coerced values. -/
theorem C8_population_std_dev (items : List RecordT) (raw : List ℚ)
    (hne : items ≠ []) (hc : coerceAll items = .ok raw) :
    (get_stats (.ok items)).stdDevField =
      round2R (Real.sqrt ((popVariance (sortedVals raw) : ℚ) : ℝ)) ∧
    popVariance (sortedVals raw) =
      ((sortedVals raw).map
        (fun x => (x - meanSpec (sortedVals raw)) ^ 2)).sum /
        ((sortedVals raw).length : ℚ) := by
  have hvar : varCode (sortedVals raw) = popVariance (sortedVals raw) := by
    simp [varCode, popVariance, meanSpec, meanCode, List.length_map]
  rw [get_stats_ok_of_ne items raw hne hc]
  refine ⟨?_, by simp [popVariance, meanSpec, List.length_map]⟩
  show round2R (Real.sqrt ((varCode (sortedVals raw) : ℚ) : ℝ)) = _
  rw [hvar]

theorem C8_witness :
    (get_stats (.ok fourRecords)).stdDevField =
      round2R (Real.sqrt ((popVariance (sortedVals [1, 2, 3, 4]) : ℚ) : ℝ)) ∧
    popVariance (sortedVals [1, 2, 3, 4]) =
      ((sortedVals [1, 2, 3, 4]).map
        (fun x => (x - meanSpec (sortedVals [1, 2, 3, 4])) ^ 2)).sum /
        ((sortedVals [1, 2, 3, 4]).length : ℚ) :=
  C8_population_std_dev fourRecords [1, 2, 3, 4] (by decide) rfl

end FrontendService
